import Mathlib

/-!
Verification of the re-financial-model calculation engine.

Shallow embedding of `app/calculations/{amortization,irr,waterfall,cashflow}.py`.
Python floats are idealised as exact rationals (`ℚ`) where every operation in
the source is field arithmetic, and as reals (`ℝ`) where the source raises a
number to a fractional power (`(1+r) ** (period/12)`), which corresponds to
`Real.rpow`.  Python's `round(x, 2)` (round-half-to-even on the scaled value)
is modelled by `round2` / `round2R`.  Python exceptions become `Except`
values; the source only ever raises `ValueError`, modelled by `PyError`.
-/

namespace REModel

/-- Round-half-to-even to 2 decimal places, modelling Python's `round(x, 2)`. -/
def round2 (x : ℚ) : ℚ :=
  let y := x * 100
  let f := ⌊y⌋
  let frac := y - f
  let n : ℤ :=
    if frac < 1/2 then f
    else if 1/2 < frac then f + 1
    else if f % 2 = 0 then f else f + 1
  (n : ℚ) / 100

/-- Round-half-to-even to 2 decimal places over ℝ (same definition as
`round2`, for the modules whose arithmetic needs real exponents). -/
noncomputable def round2R (x : ℝ) : ℝ :=
  let y := x * 100
  let f := ⌊y⌋
  let frac := y - f
  let n : ℤ :=
    if frac < 1/2 then f
    else if 1/2 < frac then f + 1
    else if f % 2 = 0 then f else f + 1
  (n : ℝ) / 100

/-! ## Dates

A proleptic-Gregorian calendar date, modelling Python's `datetime.date` and
the `dateutil.relativedelta(months=i)` addition used by the source (month
arithmetic with the day-of-month clamped to the target month's length). -/

structure MDate where
  year : ℤ
  month : ℕ
  day : ℕ
deriving DecidableEq, Repr

def isLeap (y : ℤ) : Bool :=
  y % 4 == 0 && (y % 100 != 0 || y % 400 == 0)

def monthLength (y : ℤ) (m : ℕ) : ℕ :=
  if m = 2 then (if isLeap y then 29 else 28)
  else if m = 4 ∨ m = 6 ∨ m = 9 ∨ m = 11 then 30
  else 31

/-- `d + relativedelta(months := i)`. -/
def addMonths (d : MDate) (i : ℕ) : MDate :=
  let t := (d.month - 1) + i
  let y := d.year + (t / 12 : ℕ)
  let m := t % 12 + 1
  ⟨y, m, min d.day (monthLength y m)⟩

/-- Cumulative days before month `m` in a non-leap year. -/
def cumDays (m : ℕ) : ℤ :=
  match m with
  | 1 => 0 | 2 => 31 | 3 => 59 | 4 => 90 | 5 => 120 | 6 => 151
  | 7 => 181 | 8 => 212 | 9 => 243 | 10 => 273 | 11 => 304 | _ => 334

/-- Proleptic-Gregorian ordinal of a date (as in Python's `date.toordinal`),
used to take differences of dates in days. -/
def toOrdinal (d : MDate) : ℤ :=
  365 * (d.year - 1) + ((d.year - 1).fdiv 4 - (d.year - 1).fdiv 100 + (d.year - 1).fdiv 400)
    + cumDays d.month + (if 2 < d.month ∧ isLeap d.year then 1 else 0)
    + d.day

/-- `(date2 - date1).days`, mirroring `_days_between` in `irr.py`. -/
def daysBetween (d1 d2 : MDate) : ℤ := toOrdinal d2 - toOrdinal d1

/-- `calculate_days_in_month` from `cashflow.py`:
`(period_date + relativedelta(months=1) - period_date).days`. -/
def daysInMonth (d : MDate) : ℤ := daysBetween d (addMonths d 1)

/-! ## Amortization engine (`amortization.py`), over ℚ. -/

namespace Amort

/-- `calculate_payment(principal, annual_rate, amortization_months)`. -/
def calculate_payment (principal annual_rate : ℚ) (amortization_months : ℤ) : ℚ :=
  if principal ≤ 0 then 0
  else if amortization_months ≤ 0 then 0
  else
    let monthly_rate := annual_rate / 12
    if monthly_rate = 0 then principal / amortization_months
    else
      principal * monthly_rate * ((1 + monthly_rate) ^ amortization_months.toNat)
        / (((1 + monthly_rate) ^ amortization_months.toNat) - 1)

/-- `calculate_remaining_balance(principal, annual_rate, amortization_months, payments_completed)`. -/
def calculate_remaining_balance (principal annual_rate : ℚ) (amortization_months : ℤ)
    (payments_completed : ℕ) : ℚ :=
  let monthly_rate := annual_rate / 12
  let payment := calculate_payment principal annual_rate amortization_months
  if monthly_rate = 0 then principal - payment * payments_completed
  else
    max 0 (principal * (1 + monthly_rate) ^ payments_completed -
      payment * (((1 + monthly_rate) ^ payments_completed - 1) / monthly_rate))

/-- One stored row of the amortization schedule. -/
structure ARow where
  period : ℕ
  date : MDate
  beginning_balance : ℚ
  payment : ℚ
  interest : ℚ
  principal : ℚ
  ending_balance : ℚ
deriving DecidableEq, Repr

/-- The loop body of `generate_amortization_schedule`: `fuel` counts the
remaining periods of `range(1, total_months + 1)`, `period` is the current
1-based period, `balance` the running (unrounded) balance.  The early break
on a zero balance follows the source. -/
def schedGo (annual_rate : ℚ) (amortization_months io_months : ℤ) (start_date : MDate) :
    ℕ → ℕ → ℚ → List ARow
  | 0, _, _ => []
  | fuel + 1, period, balance =>
    let monthly_rate := annual_rate / 12
    let period_date := addMonths start_date (period - 1)
    let interest := balance * monthly_rate
    let pp :=
      if (period : ℤ) ≤ io_months then ((0 : ℚ), interest)
      else
        let remaining_amort_periods := amortization_months - ((period : ℤ) - io_months - 1)
        if remaining_amort_periods > 0 then
          let payment := calculate_payment balance annual_rate remaining_amort_periods
          let principal_pmt := min (payment - interest) balance
          (principal_pmt, principal_pmt + interest)
        else
          (balance, balance + interest)
    let principal_pmt := pp.1
    let payment := pp.2
    let ending_balance := balance - principal_pmt
    let row : ARow :=
      ⟨period, period_date, round2 balance, round2 payment, round2 interest,
        round2 principal_pmt, round2 (max 0 ending_balance)⟩
    let newBalance := max 0 ending_balance
    row :: (if newBalance = 0 then [] else
      schedGo annual_rate amortization_months io_months start_date fuel (period + 1) newBalance)

/-- `generate_amortization_schedule`.  The source defaults `start_date` to
`date.today()`; the ambient value of `today` is passed explicitly. -/
def generate_amortization_schedule (principal annual_rate : ℚ)
    (amortization_months : ℤ) (io_months : ℤ) (total_months : ℕ)
    (start_date : Option MDate) (today : MDate) : List ARow :=
  schedGo annual_rate amortization_months io_months (start_date.getD today)
    total_months 1 principal

end Amort

/-! ## IRR / NPV solver (`irr.py`), over ℚ.

All cash-flow arithmetic in `calculate_npv`, `_npv_derivative` and the
Newton-Raphson loop of `calculate_irr` is field arithmetic with integer
exponents, so it embeds exactly in ℚ. -/

namespace Irr

/-- The only exception type the source raises is `ValueError`. -/
inductive PyError where
  | valueError (msg : String)
deriving DecidableEq, Repr

def MAX_ITERATIONS : ℕ := 100
def TOLERANCE : ℚ := 1 / 10000000
def DEFAULT_GUESS : ℚ := 1 / 10

def msgLen : String := "At least 2 cash flows required"
def msgSign : String := "Cash flows must contain both positive and negative values"
def msgDeriv : String := "IRR calculation failed: derivative too small"
def msgConv : String := "IRR calculation did not converge"

/-- `calculate_npv(cash_flows, discount_rate)`. -/
def calculate_npv (cash_flows : List ℚ) (discount_rate : ℚ) : ℚ :=
  (cash_flows.enum.map (fun p => p.2 / (1 + discount_rate) ^ p.1)).sum

/-- `_npv_derivative(cash_flows, rate)`. -/
def npv_derivative (cash_flows : List ℚ) (rate : ℚ) : ℚ :=
  -(cash_flows.enum.map (fun p => ((p.1 : ℚ) * p.2) / (1 + rate) ^ (p.1 + 1))).sum

/-- The Newton-Raphson loop of `calculate_irr` (`for _ in range(MAX_ITERATIONS)`),
with `fuel` the remaining iterations; exhausting the fuel is the source's
post-loop `raise ValueError("IRR calculation did not converge")`. -/
def irrLoop (cash_flows : List ℚ) : ℕ → ℚ → Except PyError ℚ
  | 0, _ => .error (.valueError msgConv)
  | fuel + 1, rate =>
    let npv := calculate_npv cash_flows rate
    let dnpv := npv_derivative cash_flows rate
    if |dnpv| < TOLERANCE then .error (.valueError msgDeriv)
    else
      let new_rate := rate - npv / dnpv
      if |new_rate - rate| < TOLERANCE then .ok new_rate
      else irrLoop cash_flows fuel new_rate

/-- `any(cf > 0 for cf in cash_flows)`. -/
def hasPositive (cash_flows : List ℚ) : Prop := ∃ cf ∈ cash_flows, 0 < cf

/-- `any(cf < 0 for cf in cash_flows)`. -/
def hasNegative (cash_flows : List ℚ) : Prop := ∃ cf ∈ cash_flows, cf < 0

instance (cash_flows : List ℚ) : Decidable (hasPositive cash_flows) :=
  List.decidableBEx _ cash_flows

instance (cash_flows : List ℚ) : Decidable (hasNegative cash_flows) :=
  List.decidableBEx _ cash_flows

/-- `calculate_irr(cash_flows, guess)`. -/
def calculate_irr (cash_flows : List ℚ) (guess : ℚ) : Except PyError ℚ :=
  if cash_flows.length < 2 then .error (.valueError msgLen)
  else if ¬ hasPositive cash_flows ∨ ¬ hasNegative cash_flows then
    .error (.valueError msgSign)
  else irrLoop cash_flows MAX_ITERATIONS guess

/-- `calculate_multiple(cash_flows)`. -/
def calculate_multiple (cash_flows : List ℚ) : Except PyError ℚ :=
  let total_inflows := (cash_flows.filter (fun cf => decide (0 < cf))).sum
  let total_outflows := |(cash_flows.filter (fun cf => decide (cf < 0))).sum|
  if total_outflows = 0 then .error (.valueError "No investment (outflows) found")
  else .ok (total_inflows / total_outflows)

/-- `calculate_profit(cash_flows)`. -/
def calculate_profit (cash_flows : List ℚ) : ℚ := cash_flows.sum

end Irr

/-! ## Waterfall engine (`waterfall.py`), over ℚ.

Every operation in `calculate_waterfall_distributions` is field arithmetic
(`min`, `max`, division for the pro-rata percentages), so the whole engine
embeds exactly in ℚ. -/

namespace Waterfall

/-- `WaterfallHurdle` dataclass (the `hurdles` parameter is accepted but
unused by the source, as is this structure). -/
structure WaterfallHurdle where
  name : String
  pref_return : ℚ
  lp_split : ℚ
  gp_split : ℚ
  gp_promote : ℚ
deriving DecidableEq, Repr

def DEFAULT_HURDLES : List WaterfallHurdle :=
  [⟨"Hurdle I", 5/100, 90/100, 10/100, 0⟩]

/-- The `final_split` dict: `lp_split`, `gp_split`, `gp_promote`. -/
structure FinalSplit where
  lp_split : ℚ
  gp_split : ℚ
  gp_promote : ℚ
deriving DecidableEq, Repr

def DEFAULT_FINAL_SPLIT : FinalSplit := ⟨75/100, 833/10000, 1667/10000⟩

/-- The running state threaded through the per-period loop: unreturned
equity and accrued (unpaid) preferred return, for LP and GP. -/
structure WState where
  lpU : ℚ
  gpU : ℚ
  lpAcc : ℚ
  gpAcc : ℚ
deriving DecidableEq, Repr

/-- The seven per-period distribution components, before rounding. -/
structure WComponents where
  lpEq : ℚ
  gpEq : ℚ
  lpPref : ℚ
  gpPref : ℚ
  lpProfit : ℚ
  gpProfit : ℚ
  promote : ℚ
deriving DecidableEq, Repr

def zeroComponents : WComponents := ⟨0, 0, 0, 0, 0, 0, 0⟩

/-- Lines 102–111: accrue preferred return each month after month 0. -/
def accrueStep (compound_monthly : Bool) (lp_equity gp_equity monthly_pref_rate : ℚ)
    (s : WState) : WState :=
  if compound_monthly then
    { s with lpAcc := s.lpAcc + (lp_equity + s.lpAcc) * monthly_pref_rate,
             gpAcc := s.gpAcc + (gp_equity + s.gpAcc) * monthly_pref_rate }
  else
    { s with lpAcc := s.lpAcc + lp_equity * monthly_pref_rate,
             gpAcc := s.gpAcc + gp_equity * monthly_pref_rate }

/-- Lines 113–173: distribute one period's cash flow.
Step 1 return of capital, step 2 preferred return, step 3 profit split;
only positive cash flows are distributed. -/
def distribute (cash_flow : ℚ) (lp_share : ℚ) (final_split : FinalSplit)
    (s : WState) : WComponents × WState :=
  if cash_flow > 0 then
    -- === STEP 1: Return of Capital ===
    let total_equity_unreturned := s.lpU + s.gpU
    let step1 :=
      if total_equity_unreturned > 0 then
        let equity_payment := min cash_flow total_equity_unreturned
        let lp_equity_pct :=
          if total_equity_unreturned > 0 then s.lpU / total_equity_unreturned else lp_share
        let lp_equity_return := equity_payment * lp_equity_pct
        let gp_equity_return := equity_payment * (1 - lp_equity_pct)
        (lp_equity_return, gp_equity_return, cash_flow - equity_payment)
      else ((0 : ℚ), (0 : ℚ), cash_flow)
    let lp_equity_return := step1.1
    let gp_equity_return := step1.2.1
    let remaining1 := step1.2.2
    -- === STEP 2: Preferred Return ===
    let total_pref_owed := s.lpAcc + s.gpAcc
    let step2 :=
      if remaining1 > 0 ∧ total_pref_owed > 0 then
        let pref_payment := min remaining1 total_pref_owed
        let lp_pref_pct := if total_pref_owed > 0 then s.lpAcc / total_pref_owed else lp_share
        let lp_pref_paid := pref_payment * lp_pref_pct
        let gp_pref_paid := pref_payment * (1 - lp_pref_pct)
        (lp_pref_paid, gp_pref_paid, remaining1 - pref_payment)
      else ((0 : ℚ), (0 : ℚ), remaining1)
    let lp_pref_paid := step2.1
    let gp_pref_paid := step2.2.1
    let remaining2 := step2.2.2
    -- === STEP 3: Profit Split with GP Promote ===
    let step3 :=
      if remaining2 > 0 then
        (remaining2 * final_split.lp_split, remaining2 * final_split.gp_split,
          remaining2 * final_split.gp_promote)
      else ((0 : ℚ), (0 : ℚ), (0 : ℚ))
    (⟨lp_equity_return, gp_equity_return, lp_pref_paid, gp_pref_paid,
      step3.1, step3.2.1, step3.2.2⟩,
     ⟨s.lpU - lp_equity_return, s.gpU - gp_equity_return,
      s.lpAcc - lp_pref_paid, s.gpAcc - gp_pref_paid⟩)
  else (zeroComponents, s)

/-- One stored distribution record (fields rounded to 2 decimals as in the
source; the `date` is `None` when the index is out of range of `dates`). -/
structure WRecord where
  period : ℕ
  date : Option MDate
  cash_flow : ℚ
  lp_equity_return : ℚ
  gp_equity_return : ℚ
  lp_preferred_return : ℚ
  gp_preferred_return : ℚ
  lp_profit_share : ℚ
  gp_profit_share : ℚ
  gp_promote : ℚ
  total_to_lp : ℚ
  total_to_gp : ℚ
  lp_equity_unreturned : ℚ
  gp_equity_unreturned : ℚ
  lp_pref_accrued : ℚ
  gp_pref_accrued : ℚ
deriving DecidableEq, Repr

/-- One iteration of the `for i, cash_flow in enumerate(...)` loop:
accrual (for `i > 0`), distribution, then the record appended for period `i`. -/
def wfStep (compound_monthly : Bool) (lp_equity gp_equity monthly_pref_rate lp_share : ℚ)
    (final_split : FinalSplit) (dates : List MDate) (i : ℕ) (cash_flow : ℚ)
    (s : WState) : WRecord × WState :=
  let s1 := if i > 0 then
    accrueStep compound_monthly lp_equity gp_equity monthly_pref_rate s else s
  let cs := distribute cash_flow lp_share final_split s1
  let c := cs.1
  let s2 := cs.2
  let total_to_lp := c.lpEq + c.lpPref + c.lpProfit
  let total_to_gp := c.gpEq + c.gpPref + c.gpProfit + c.promote
  (⟨i, dates.get? i, round2 cash_flow,
    round2 c.lpEq, round2 c.gpEq, round2 c.lpPref, round2 c.gpPref,
    round2 c.lpProfit, round2 c.gpProfit, round2 c.promote,
    round2 total_to_lp, round2 total_to_gp,
    round2 (max 0 s2.lpU), round2 (max 0 s2.gpU),
    round2 (max 0 s2.lpAcc), round2 (max 0 s2.gpAcc)⟩, s2)

/-- The enumeration loop of `calculate_waterfall_distributions`. -/
def wfGo (compound_monthly : Bool) (lp_equity gp_equity monthly_pref_rate lp_share : ℚ)
    (final_split : FinalSplit) (dates : List MDate) :
    ℕ → List ℚ → WState → List WRecord
  | _, [], _ => []
  | i, cash_flow :: rest, s =>
    let rs := wfStep compound_monthly lp_equity gp_equity monthly_pref_rate lp_share
      final_split dates i cash_flow s
    rs.1 :: wfGo compound_monthly lp_equity gp_equity monthly_pref_rate lp_share
      final_split dates (i + 1) rest rs.2

/-- `calculate_waterfall_distributions`.  The `hurdles` parameter is accepted
and ignored, exactly as in the source; `final_split = none` selects
`DEFAULT_FINAL_SPLIT`. -/
def calculate_waterfall_distributions (leveraged_cash_flows : List ℚ) (dates : List MDate)
    (total_equity : ℚ) (lp_share : ℚ) (gp_share : ℚ) (pref_return : ℚ)
    (compound_monthly : Bool) (hurdles : Option (List WaterfallHurdle))
    (final_split : Option FinalSplit) : List WRecord :=
  let split := final_split.getD DEFAULT_FINAL_SPLIT
  let lp_equity := total_equity * lp_share
  let gp_equity := total_equity * gp_share
  let monthly_pref_rate := pref_return / 12
  wfGo compound_monthly lp_equity gp_equity monthly_pref_rate lp_share split dates
    0 leveraged_cash_flows ⟨lp_equity, gp_equity, 0, 0⟩

/-- `extract_lp_cash_flows(distributions, lp_equity)`. -/
def extract_lp_cash_flows (distributions : List WRecord) (lp_equity : ℚ) : List ℚ :=
  distributions.enum.map fun p =>
    if p.1 = 0 then -lp_equity + p.2.total_to_lp else p.2.total_to_lp

/-- `extract_gp_cash_flows(distributions, gp_equity)`. -/
def extract_gp_cash_flows (distributions : List WRecord) (gp_equity : ℚ) : List ℚ :=
  distributions.enum.map fun p =>
    if p.1 = 0 then -gp_equity + p.2.total_to_gp else p.2.total_to_gp

end Waterfall

/-! ## Cash-flow generator (`cashflow.py`), over ℝ.

The rent escalation `(1 + rate) ** (period / 12)` raises to a fractional
power, so this module is embedded over ℝ with `Real.rpow` (hence the
definitions are noncomputable). -/

namespace Cashflow

open scoped Classical

/-- `Tenant` dataclass. -/
structure Tenant where
  name : String
  rsf : ℝ
  in_place_rent_psf : ℝ
  market_rent_psf : ℝ
  lease_end_month : ℤ

/-- `calculate_tenant_rent(tenant, period, rent_growth)`. -/
noncomputable def calculate_tenant_rent (tenant : Tenant) (period : ℕ) (rent_growth : ℝ) : ℝ :=
  let rent_psf :=
    if (period : ℤ) ≤ tenant.lease_end_month then tenant.in_place_rent_psf
    else tenant.market_rent_psf
  let escalation_factor := (1 + rent_growth) ^ ((period : ℝ) / 12)
  (tenant.rsf * rent_psf * escalation_factor) / 12 / 1000

/-- `calculate_total_tenant_rent(tenants, period, rent_growth)`. -/
noncomputable def calculate_total_tenant_rent (tenants : List Tenant) (period : ℕ)
    (rent_growth : ℝ) : ℝ :=
  (tenants.map fun tenant => calculate_tenant_rent tenant period rent_growth).sum

/-- `generate_monthly_dates(start_date, num_months)`. -/
def generate_monthly_dates (start_date : MDate) (num_months : ℕ) : List MDate :=
  (List.range (num_months + 1)).map (addMonths start_date)

/-- The `frequency` argument of `calculate_escalation_factor`; the source
compares against the string `"monthly"` and treats anything else as annual. -/
inductive Frequency where
  | monthly
  | annual
deriving DecidableEq, Repr

/-- `calculate_escalation_factor(annual_rate, period, frequency)`:
compound monthly, or step up annually via `period // 12`. -/
noncomputable def calculate_escalation_factor (annual_rate : ℝ) (period : ℕ)
    (frequency : Frequency) : ℝ :=
  match frequency with
  | .monthly => (1 + annual_rate) ^ ((period : ℝ) / 12)
  | .annual => (1 + annual_rate) ^ (period / 12)

/-- Modelled from the spec: `calculate_property_tax_escalation`, the
property-tax annual-step variant described in the specification (and imported
by this repository's Excel-parity tests) but absent from `src/`: the factor
stays `1.0` through period 12 and first becomes `(1+rate)^1` at period 13. -/
noncomputable def calculate_property_tax_escalation (annual_rate : ℝ) (period : ℕ) : ℝ :=
  (1 + annual_rate) ^ ((period - 1) / 12)

/-- The scenario-configuration parameters of `generate_cash_flows`. -/
structure CFConfig where
  acquisition_date : MDate
  hold_period_months : ℕ
  purchase_price : ℝ
  closing_costs : ℝ
  total_sf : ℝ
  in_place_rent_psf : ℝ
  market_rent_psf : ℝ
  rent_growth : ℝ
  vacancy_rate : ℝ
  fixed_opex_psf : ℝ
  management_fee_percent : ℝ
  property_tax_amount : ℝ
  capex_reserve_psf : ℝ
  expense_growth : ℝ
  exit_cap_rate : ℝ
  sales_cost_percent : ℝ
  loan_amount : Option ℝ
  interest_rate : ℝ
  io_months : ℕ
  amortization_years : ℕ
  tenants : Option (List Tenant)
  nnn_lease : Bool
  use_actual_365 : Bool

/-- Python's truthiness test `if loan_amount and loan_amount > 0`:
`None` and `0.0` are falsy, otherwise the comparison decides. -/
def loanPos : Option ℝ → Prop
  | none => False
  | some amount => 0 < amount

def loanVal : Option ℝ → ℝ
  | none => 0
  | some amount => amount

/-- The per-period figures stored by the first pass of `generate_cash_flows`
(the `period_data` dict), all unrounded. -/
structure P1 where
  period_date : MDate
  base_rent : ℝ
  reimbursement_fixed : ℝ
  reimbursement_variable : ℝ
  total_reimbursement : ℝ
  potential_revenue : ℝ
  vacancy_loss : ℝ
  effective_revenue : ℝ
  fixed_opex : ℝ
  mgmt_fee : ℝ
  prop_tax : ℝ
  capex : ℝ
  total_expenses : ℝ
  noi : ℝ

/-- Pass 1 of `generate_cash_flows` for one period (lines 158–236): revenue,
NNN reimbursements, vacancy, expenses and NOI.  Each loop iteration depends
only on `period`, so the pass is a pure function of the period index. -/
noncomputable def passOne (cfg : CFConfig) (period : ℕ) : P1 :=
  let period_date := addMonths cfg.acquisition_date period
  -- === REVENUE ===
  let uniform_base_rent :=
    (cfg.total_sf * cfg.in_place_rent_psf *
      calculate_escalation_factor cfg.rent_growth period .monthly) / 12 / 1000
  let base_rent_tenants :=
    match cfg.tenants with
    | some tenants =>
        if 0 < tenants.length then calculate_total_tenant_rent tenants period cfg.rent_growth
        else uniform_base_rent
    | none => uniform_base_rent
  -- === Month 0 has no operating revenue ===
  let base_rent := if period = 0 then 0 else base_rent_tenants
  -- === EXPENSES ===
  let expense_escalation := calculate_escalation_factor cfg.expense_growth period .annual
  let expense_sf :=
    match cfg.tenants with
    | some tenants =>
        if 0 < tenants.length then (tenants.map fun t => t.rsf).sum else cfg.total_sf
    | none => cfg.total_sf
  let fixed_opex := (expense_sf * cfg.fixed_opex_psf * expense_escalation) / 12 / 1000
  let prop_tax := (cfg.property_tax_amount * expense_escalation) / 12
  let capex := (expense_sf * cfg.capex_reserve_psf * expense_escalation) / 12 / 1000
  -- === NNN EXPENSE REIMBURSEMENTS ===
  let reimbursement_fixed :=
    if cfg.nnn_lease ∧ 0 < period then fixed_opex + prop_tax else 0
  let potential_revenue := base_rent + reimbursement_fixed
  let vacancy_loss := -potential_revenue * cfg.vacancy_rate
  let effective_revenue := potential_revenue + vacancy_loss
  let mgmt_fee := effective_revenue * cfg.management_fee_percent
  let reimbursement_variable :=
    if cfg.nnn_lease ∧ 0 < period then mgmt_fee else 0
  let potential_revenue2 := potential_revenue + reimbursement_variable
  let effective_revenue2 := effective_revenue + reimbursement_variable
  let total_reimbursement := reimbursement_fixed + reimbursement_variable
  let total_expenses := fixed_opex + mgmt_fee + prop_tax + capex
  -- === NOI ===
  let noi := effective_revenue2 - total_expenses
  ⟨period_date, base_rent, reimbursement_fixed, reimbursement_variable,
    total_reimbursement, potential_revenue2, vacancy_loss, effective_revenue2,
    fixed_opex, mgmt_fee, prop_tax, capex, total_expenses, noi⟩

/-- The forward 12-month NOI computed at the exit period (lines 256–265):
future months within the hold window use their computed NOI, months beyond
it extrapolate the current NOI with rent-growth escalation. -/
noncomputable def forward_noi (cfg : CFConfig) (period : ℕ) : ℝ :=
  (Finset.range 12).sum fun j =>
    let future_month := j + 1
    let future_period := period + future_month
    if future_period ≤ cfg.hold_period_months then (passOne cfg future_period).noi
    else (passOne cfg period).noi * (1 + cfg.rent_growth) ^ ((future_month : ℝ) / 12)

/-- `calculate_payment` as used by `generate_cash_flows` (imported from
`amortization.py`; same formula as `Amort.calculate_payment`, over ℝ). -/
noncomputable def calculate_payment (principal annual_rate : ℝ) (amortization_months : ℤ) : ℝ :=
  if principal ≤ 0 then 0
  else if amortization_months ≤ 0 then 0
  else
    let monthly_rate := annual_rate / 12
    if monthly_rate = 0 then principal / amortization_months
    else
      principal * monthly_rate * ((1 + monthly_rate) ^ amortization_months.toNat)
        / (((1 + monthly_rate) ^ amortization_months.toNat) - 1)

/-- The unrounded figures of pass 2 of `generate_cash_flows` for one period
(lines 239–308): capital events, debt service, and the two cash-flow lines. -/
structure P2 where
  noi : ℝ
  acquisition_costs : ℝ
  exit_proceeds : ℝ
  interest_expense : ℝ
  principal_payment : ℝ
  debt_service : ℝ
  unleveraged_cf : ℝ
  leveraged_cf : ℝ

noncomputable def passTwo (cfg : CFConfig) (period : ℕ) : P2 :=
  let data := passOne cfg period
  let noi := data.noi
  -- === CAPITAL EVENTS ===
  let acquisition_costs :=
    if period = 0 then cfg.purchase_price + cfg.closing_costs else 0
  let exit_proceeds :=
    if period = cfg.hold_period_months then
      let fwd := forward_noi cfg period
      let gross_value := if cfg.exit_cap_rate > 0 then fwd / cfg.exit_cap_rate else 0
      let sales_costs_amount := gross_value * cfg.sales_cost_percent
      gross_value - sales_costs_amount
    else 0
  -- === DEBT SERVICE ===
  let amount := loanVal cfg.loan_amount
  let interest_expense :=
    if loanPos cfg.loan_amount ∧ 0 < period then
      if cfg.use_actual_365 then
        amount * (cfg.interest_rate / 365) * (daysInMonth data.period_date : ℝ)
      else amount * (cfg.interest_rate / 12)
    else 0
  let pd :=
    if loanPos cfg.loan_amount ∧ 0 < period then
      if period ≤ cfg.io_months then ((0 : ℝ), interest_expense)
      else
        let amort_months : ℤ := (cfg.amortization_years : ℤ) * 12
        let payment := calculate_payment amount cfg.interest_rate amort_months
        (payment - interest_expense, payment)
    else ((0 : ℝ), (0 : ℝ))
  let principal_payment := pd.1
  let debt_service := pd.2
  -- === CASH FLOWS ===
  let unleveraged_cf := noi - acquisition_costs + exit_proceeds
  let leveraged_cf0 := unleveraged_cf - debt_service
  -- First period: add loan proceeds if applicable
  let leveraged_cf1 :=
    if period = 0 ∧ loanPos cfg.loan_amount then leveraged_cf0 + amount else leveraged_cf0
  -- Exit period: pay off loan balance (the full original loan amount)
  let leveraged_cf :=
    if period = cfg.hold_period_months ∧ loanPos cfg.loan_amount then leveraged_cf1 - amount
    else leveraged_cf1
  ⟨noi, acquisition_costs, exit_proceeds, interest_expense, principal_payment,
    debt_service, unleveraged_cf, leveraged_cf⟩

/-- One stored period record (fields rounded to 2 decimals as in the source). -/
structure CFRecord where
  period : ℕ
  date : MDate
  base_rent : ℝ
  reimbursement_revenue : ℝ
  potential_revenue : ℝ
  vacancy_loss : ℝ
  effective_revenue : ℝ
  fixed_opex : ℝ
  management_fee : ℝ
  property_tax : ℝ
  capex_reserve : ℝ
  total_expenses : ℝ
  noi : ℝ
  acquisition_costs : ℝ
  exit_proceeds : ℝ
  interest_expense : ℝ
  principal_payment : ℝ
  debt_service : ℝ
  unleveraged_cash_flow : ℝ
  leveraged_cash_flow : ℝ

noncomputable def cashFlowRecord (cfg : CFConfig) (period : ℕ) : CFRecord :=
  let d := passOne cfg period
  let c := passTwo cfg period
  ⟨period, d.period_date, round2R d.base_rent, round2R d.total_reimbursement,
    round2R d.potential_revenue, round2R d.vacancy_loss, round2R d.effective_revenue,
    round2R d.fixed_opex, round2R d.mgmt_fee, round2R d.prop_tax, round2R d.capex,
    round2R d.total_expenses, round2R c.noi, round2R c.acquisition_costs,
    round2R c.exit_proceeds, round2R c.interest_expense, round2R c.principal_payment,
    round2R c.debt_service, round2R c.unleveraged_cf, round2R c.leveraged_cf⟩

/-- `generate_cash_flows`: one record per period `0 .. hold_period_months`. -/
noncomputable def generate_cash_flows (cfg : CFConfig) : List CFRecord :=
  (List.range (cfg.hold_period_months + 1)).map (cashFlowRecord cfg)

/-! Concrete scenario configurations used to instantiate the theorems below. -/

/-- A 1-month hold with zero rent and 1 \$/SF of fixed opex: every period's
NOI is −1 (in \$000s), so the forward NOI at exit is negative. -/
noncomputable def negNoiConfig : CFConfig :=
  { acquisition_date := ⟨2026, 1, 1⟩
    hold_period_months := 1
    purchase_price := 1000
    closing_costs := 15
    total_sf := 12000
    in_place_rent_psf := 0
    market_rent_psf := 0
    rent_growth := 0
    vacancy_rate := 0
    fixed_opex_psf := 1
    management_fee_percent := 0
    property_tax_amount := 0
    capex_reserve_psf := 0
    expense_growth := 0
    exit_cap_rate := 3/50
    sales_cost_percent := 1/50
    loan_amount := none
    interest_rate := 1/20
    io_months := 120
    amortization_years := 30
    tenants := none
    nnn_lease := false
    use_actual_365 := true }

/-- A 1-month hold with 12 \$/SF rent, no expenses and no growth: every
period after 0 has NOI = 1, so the forward NOI at exit is 12. -/
noncomputable def posNoiConfig : CFConfig :=
  { acquisition_date := ⟨2026, 1, 1⟩
    hold_period_months := 1
    purchase_price := 1000
    closing_costs := 15
    total_sf := 1000
    in_place_rent_psf := 12
    market_rent_psf := 12
    rent_growth := 0
    vacancy_rate := 0
    fixed_opex_psf := 0
    management_fee_percent := 0
    property_tax_amount := 0
    capex_reserve_psf := 0
    expense_growth := 0
    exit_cap_rate := 3/50
    sales_cost_percent := 1/50
    loan_amount := none
    interest_rate := 1/20
    io_months := 120
    amortization_years := 30
    tenants := none
    nnn_lease := false
    use_actual_365 := true }

/-- The Excel-parity scenario's property-tax inputs: annual tax 622.5 \$000s,
expense growth 2.5%. -/
noncomputable def propTaxConfig : CFConfig :=
  { acquisition_date := ⟨2026, 3, 31⟩
    hold_period_months := 120
    purchase_price := 100000
    closing_costs := 1000
    total_sf := 12000
    in_place_rent_psf := 193
    market_rent_psf := 300
    rent_growth := 1/40
    vacancy_rate := 0
    fixed_opex_psf := 36
    management_fee_percent := 1/25
    property_tax_amount := 1245/2
    capex_reserve_psf := 5
    expense_growth := 1/40
    exit_cap_rate := 1/20
    sales_cost_percent := 1/50
    loan_amount := none
    interest_rate := 1/20
    io_months := 120
    amortization_years := 30
    tenants := none
    nnn_lease := true
    use_actual_365 := true }

/-- A 2-month hold with a 500 loan, used to instantiate the exit-payoff
theorem. -/
noncomputable def loanExampleConfig : CFConfig :=
  { acquisition_date := ⟨2026, 1, 1⟩
    hold_period_months := 2
    purchase_price := 1000
    closing_costs := 15
    total_sf := 1000
    in_place_rent_psf := 12
    market_rent_psf := 12
    rent_growth := 0
    vacancy_rate := 0
    fixed_opex_psf := 0
    management_fee_percent := 0
    property_tax_amount := 0
    capex_reserve_psf := 0
    expense_growth := 0
    exit_cap_rate := 3/50
    sales_cost_percent := 1/50
    loan_amount := some 500
    interest_rate := 1/20
    io_months := 120
    amortization_years := 30
    tenants := none
    nnn_lease := false
    use_actual_365 := false }

end Cashflow

/-! ## XIRR (`irr.py`), over ℝ.

`calculate_xnpv` discounts by `(1 + rate) ** (days / 365)`, a fractional
power, so the date-based solver is embedded over ℝ. -/

namespace Xirr

open Irr (PyError MAX_ITERATIONS msgLen msgSign)

open scoped Classical

noncomputable def TOLERANCE : ℝ := 1 / 10000000

def msgMismatch : String := "Cash flows and dates arrays must have same length"
def msgDerivX : String := "XIRR calculation failed: derivative too small"
def msgConvX : String := "XIRR calculation did not converge"

/-- `calculate_xnpv` for matching-length inputs (`dates.headD` / `getD` stand
for the subscripts `dates[0]`, `dates[i]`, which the caller's length check
guarantees are in range). -/
noncomputable def xnpvSum (cash_flows : List ℝ) (dates : List MDate) (rate : ℝ) : ℝ :=
  let base_date := dates.headD ⟨1, 1, 1⟩
  (cash_flows.enum.map fun p =>
    let days := daysBetween base_date (dates.getD p.1 ⟨1, 1, 1⟩)
    let years := (days : ℝ) / 365
    p.2 / (1 + rate) ^ years).sum

/-- `_xnpv_derivative` for matching-length inputs (`dxnpv -=` accumulation is
written as a sum of negated terms). -/
noncomputable def xnpvDeriv (cash_flows : List ℝ) (dates : List MDate) (rate : ℝ) : ℝ :=
  let base_date := dates.headD ⟨1, 1, 1⟩
  (cash_flows.enum.map fun p =>
    let days := daysBetween base_date (dates.getD p.1 ⟨1, 1, 1⟩)
    let years := (days : ℝ) / 365; -((years * p.2) / (1 + rate) ^ (years + 1))).sum

/-- `any(cf > 0 for cf in cash_flows)`. -/
def hasPositiveR (cash_flows : List ℝ) : Prop := ∃ cf ∈ cash_flows, 0 < cf

/-- `any(cf < 0 for cf in cash_flows)`. -/
def hasNegativeR (cash_flows : List ℝ) : Prop := ∃ cf ∈ cash_flows, cf < 0

/-- The Newton-Raphson loop of `calculate_xirr`. -/
noncomputable def xirrLoop (cash_flows : List ℝ) (dates : List MDate) :
    ℕ → ℝ → Except PyError ℝ
  | 0, _ => .error (.valueError msgConvX)
  | fuel + 1, rate =>
    let xnpv := xnpvSum cash_flows dates rate
    let dxnpv := xnpvDeriv cash_flows dates rate
    if |dxnpv| < TOLERANCE then .error (.valueError msgDerivX)
    else
      let new_rate := rate - xnpv / dxnpv
      if |new_rate - rate| < TOLERANCE then .ok new_rate
      else xirrLoop cash_flows dates fuel new_rate

/-- `calculate_xirr(cash_flows, dates, guess)`. -/
noncomputable def calculate_xirr (cash_flows : List ℝ) (dates : List MDate) (guess : ℝ) :
    Except PyError ℝ :=
  if cash_flows.length ≠ dates.length then .error (.valueError msgMismatch)
  else if cash_flows.length < 2 then .error (.valueError msgLen)
  else if ¬ hasPositiveR cash_flows ∨ ¬ hasNegativeR cash_flows then
    .error (.valueError msgSign)
  else xirrLoop cash_flows dates MAX_ITERATIONS guess

/-- `monthly_to_annual_irr(monthly_irr)`: `((1 + monthly_irr) ** 12) - 1`. -/
noncomputable def monthly_to_annual_irr (monthly_irr : ℝ) : ℝ :=
  (1 + monthly_irr) ^ (12 : ℕ) - 1

/-- `annual_to_monthly_irr(annual_irr)`: `((1 + annual_irr) ** (1/12)) - 1`. -/
noncomputable def annual_to_monthly_irr (annual_irr : ℝ) : ℝ :=
  (1 + annual_irr) ^ ((1 : ℝ) / 12) - 1

end Xirr

/-! # Theorems -/

/-- Helper: every error the Newton-Raphson loop of `calculate_irr` raises is
one of the two convergence-stage messages. -/
theorem irrLoop_error_classified (cash_flows : List ℚ) :
    ∀ (fuel : ℕ) (rate : ℚ) (e : Irr.PyError),
      Irr.irrLoop cash_flows fuel rate = .error e →
      e = .valueError Irr.msgDeriv ∨ e = .valueError Irr.msgConv := by
  intro fuel
  induction fuel with
  | zero =>
    intro rate e h
    rw [Irr.irrLoop] at h
    exact Or.inr (Except.error.inj h).symm
  | succ n ih =>
    intro rate e h
    rw [Irr.irrLoop] at h
    dsimp only at h
    split_ifs at h with h1 h2
    · exact Or.inl (Except.error.inj h).symm
    all_goals first
      | exact Except.noConfusion h
      | exact ih _ _ h

/-- Helper: every error the Newton-Raphson loop of `calculate_xirr` raises is
one of the two convergence-stage messages. -/
theorem xirrLoop_error_classified (cash_flows : List ℝ) (dates : List MDate) :
    ∀ (fuel : ℕ) (rate : ℝ) (e : Irr.PyError),
      Xirr.xirrLoop cash_flows dates fuel rate = .error e →
      e = .valueError Xirr.msgDerivX ∨ e = .valueError Xirr.msgConvX := by
  intro fuel
  induction fuel with
  | zero =>
    intro rate e h
    rw [Xirr.xirrLoop] at h
    exact Or.inr (Except.error.inj h).symm
  | succ n ih =>
    intro rate e h
    rw [Xirr.xirrLoop] at h
    dsimp only at h
    split_ifs at h with h1 h2
    · exact Or.inl (Except.error.inj h).symm
    all_goals first
      | exact Except.noConfusion h
      | exact ih _ _ h

/-- C9: for every valid annual rate `x` (i.e. `-1 ≤ x`, so the real 12th root
is defined), `monthly_to_annual_irr (annual_to_monthly_irr x) = x` exactly:
the conversions `(1+r)^12 - 1` and `(1+r)^(1/12) - 1` are compounding
inverses, not linear approximations. -/
theorem c9_irr_conversion_roundtrip (x : ℝ) (hx : -1 ≤ x) :
    Xirr.monthly_to_annual_irr (Xirr.annual_to_monthly_irr x) = x := by
  have h1 : (0:ℝ) ≤ 1 + x := by linarith
  unfold Xirr.monthly_to_annual_irr Xirr.annual_to_monthly_irr
  have h2 : 1 + ((1 + x) ^ ((1:ℝ)/12) - 1) = (1 + x) ^ ((1:ℝ)/12) := by ring
  rw [h2, ← Real.rpow_natCast ((1 + x) ^ ((1:ℝ)/12)) 12, ← Real.rpow_mul h1]
  norm_num

/-- Witness for C9 at the concrete rate `x = 1/10`. -/
theorem c9_witness :
    -1 ≤ (1/10 : ℝ) ∧
      Xirr.monthly_to_annual_irr (Xirr.annual_to_monthly_irr (1/10)) = 1/10 :=
  ⟨by norm_num, c9_irr_conversion_roundtrip (1/10) (by norm_num)⟩

/-- C5: `calculate_irr` raises an invalid-input error (before any
Newton-Raphson iteration, with one of the two precondition messages) exactly
when the input has fewer than 2 cash flows or no positive or no negative
value; in particular it does so on `[100, 100, 100]` and on `[-100, -50]`. -/
theorem c5_invalid_input_iff :
    (∀ (cash_flows : List ℚ) (guess : ℚ),
      (Irr.calculate_irr cash_flows guess = .error (.valueError Irr.msgLen) ∨
        Irr.calculate_irr cash_flows guess = .error (.valueError Irr.msgSign)) ↔
        (cash_flows.length < 2 ∨
          ¬ Irr.hasPositive cash_flows ∨ ¬ Irr.hasNegative cash_flows)) ∧
    (∀ guess : ℚ,
      Irr.calculate_irr [100, 100, 100] guess = .error (.valueError Irr.msgSign)) ∧
    (∀ guess : ℚ,
      Irr.calculate_irr [-100, -50] guess = .error (.valueError Irr.msgSign)) := by
  refine ⟨fun cash_flows guess => ?_, fun guess => rfl, fun guess => rfl⟩
  unfold Irr.calculate_irr
  split_ifs with h1 h2
  · exact ⟨fun _ => Or.inl h1, fun _ => Or.inl rfl⟩
  · exact ⟨fun _ => Or.inr h2, fun _ => Or.inr rfl⟩
  · constructor
    · rintro (h | h) <;>
        rcases irrLoop_error_classified cash_flows _ _ _ h with h' | h' <;>
        exact absurd (Irr.PyError.valueError.inj h') (by decide)
    · rintro (h | h)
      · exact absurd h h1
      · exact absurd h h2

/-- Helper: membership in `if c then [] else l` implies membership in `l`
(the early-break branch of a schedule loop contributes no rows). -/
theorem mem_ite_nil_elim {α : Type} {a : α} {c : Prop} [Decidable c] {l : List α}
    (h : a ∈ (if c then [] else l)) : a ∈ l := by
  split at h
  · simp at h
  · exact h

/-- C6 counterexample: the claim asserts two distinct exception types
(`InvalidCashFlowError` vs `ConvergenceError`), but both a precondition
violation (uniform sign, on `[100, 100, 100]`) and a convergence failure
(derivative below tolerance on the first iteration, on `[-1, 10^-8]`) raise
the one and only error type of the code, `ValueError`, differing only in
message. -/
theorem c6_counterexample :
    Irr.calculate_irr [100, 100, 100] Irr.DEFAULT_GUESS =
      .error (.valueError Irr.msgSign) ∧
    Irr.calculate_irr [-1, 1/100000000] Irr.DEFAULT_GUESS =
      .error (.valueError Irr.msgDeriv) := by
  constructor
  · rfl
  · have hd : Irr.npv_derivative [-1, 1/100000000] Irr.DEFAULT_GUESS = -1/121000000 := by
      norm_num [Irr.npv_derivative, Irr.DEFAULT_GUESS, List.enum, List.enumFrom]
    unfold Irr.calculate_irr
    rw [if_neg (by norm_num), if_neg (by
      norm_num [Irr.hasPositive, Irr.hasNegative])]
    rw [show Irr.MAX_ITERATIONS = 99 + 1 from rfl, Irr.irrLoop]
    dsimp only
    rw [if_pos (by
      rw [hd, abs_lt, Irr.TOLERANCE]
      constructor <;> norm_num)]

/-- C6 amended: `calculate_irr` and `calculate_xirr` raise one exception type
(`ValueError`) for every failure; precondition violations and
convergence-stage failures are distinguishable only by message: the message
is a precondition message exactly when a precondition is violated. -/
theorem c6_amended_error_classification :
    (∀ (cash_flows : List ℚ) (guess : ℚ) (e : Irr.PyError),
      Irr.calculate_irr cash_flows guess = .error e →
      ∃ m, e = .valueError m ∧
        ((m = Irr.msgLen ∨ m = Irr.msgSign) ↔
          (cash_flows.length < 2 ∨
            ¬ Irr.hasPositive cash_flows ∨ ¬ Irr.hasNegative cash_flows))) ∧
    (∀ (cash_flows : List ℝ) (dates : List MDate) (guess : ℝ) (e : Irr.PyError),
      Xirr.calculate_xirr cash_flows dates guess = .error e →
      ∃ m, e = .valueError m ∧
        ((m = Xirr.msgMismatch ∨ m = Irr.msgLen ∨ m = Irr.msgSign) ↔
          (cash_flows.length ≠ dates.length ∨ cash_flows.length < 2 ∨
            ¬ Xirr.hasPositiveR cash_flows ∨ ¬ Xirr.hasNegativeR cash_flows))) := by
  constructor
  · intro cash_flows guess e h
    unfold Irr.calculate_irr at h
    split_ifs at h with h1 h2
    · refine ⟨Irr.msgLen, (Except.error.inj h).symm, iff_of_true (Or.inl rfl) (Or.inl h1)⟩
    · refine ⟨Irr.msgSign, (Except.error.inj h).symm, iff_of_true (Or.inr rfl) (Or.inr h2)⟩
    · rcases irrLoop_error_classified cash_flows _ _ _ h with h' | h' <;>
        subst h' <;>
        exact ⟨_, rfl, iff_of_false (by decide) (by tauto)⟩
  · intro cash_flows dates guess e h
    unfold Xirr.calculate_xirr at h
    split_ifs at h with h0 h1 h2
    · exact ⟨Xirr.msgMismatch, (Except.error.inj h).symm,
        iff_of_true (Or.inl rfl) (Or.inl h0)⟩
    · exact ⟨Irr.msgLen, (Except.error.inj h).symm,
        iff_of_true (Or.inr (Or.inl rfl)) (Or.inr (Or.inl h1))⟩
    · exact ⟨Irr.msgSign, (Except.error.inj h).symm,
        iff_of_true (Or.inr (Or.inr rfl)) (Or.inr (Or.inr h2))⟩
    · rcases xirrLoop_error_classified cash_flows dates _ _ _ h with h' | h' <;>
        subst h' <;>
        exact ⟨_, rfl, iff_of_false (by decide) (by tauto)⟩

/-- Helper: rows produced by `schedGo` starting at `period` all carry a
period index at least `period`. -/
theorem schedGo_period_ge (annual_rate : ℚ) (amortization_months io_months : ℤ)
    (start_date : MDate) :
    ∀ (fuel period : ℕ) (balance : ℚ),
      ∀ row ∈ Amort.schedGo annual_rate amortization_months io_months start_date
        fuel period balance, period ≤ row.period := by
  intro fuel
  induction fuel with
  | zero =>
    intro period balance row hrow
    simp [Amort.schedGo] at hrow
  | succ n ih =>
    intro period balance row hrow
    rw [Amort.schedGo] at hrow
    rcases List.mem_cons.mp hrow with h | h
    · subst h; exact le_refl _
    · exact le_trans (Nat.le_succ _) (ih (period + 1) _ row (mem_ite_nil_elim h))

/-- Helper: while the running balance equals the original principal, every
row of `schedGo` whose period lies in the interest-only window has a zero
principal payment and stores the (rounded) original principal as both its
beginning and ending balance. -/
theorem schedGo_io_window (principal annual_rate : ℚ)
    (amortization_months io_months : ℤ) (start_date : MDate)
    (hp : 0 ≤ principal) :
    ∀ (fuel period : ℕ),
      ∀ row ∈ Amort.schedGo annual_rate amortization_months io_months start_date
        fuel period principal,
        (row.period : ℤ) ≤ io_months →
        row.principal = 0 ∧ row.beginning_balance = round2 principal ∧
          row.ending_balance = round2 principal := by
  intro fuel
  induction fuel with
  | zero =>
    intro period row hrow
    simp [Amort.schedGo] at hrow
  | succ n ih =>
    intro period row hrow hio
    by_cases hper : (period : ℤ) ≤ io_months
    · rw [Amort.schedGo] at hrow
      rw [if_pos hper] at hrow
      dsimp only at hrow
      rcases List.mem_cons.mp hrow with h | h
      · subst h
        refine ⟨?_, rfl, ?_⟩
        · show round2 0 = 0
          norm_num [round2]
        · show round2 (max 0 (principal - 0)) = round2 principal
          rw [sub_zero, max_eq_right hp]
      · have h' := mem_ite_nil_elim h
        rw [sub_zero, max_eq_right hp] at h'
        exact ih (period + 1) row h' hio
    · rw [Amort.schedGo] at hrow
      rcases List.mem_cons.mp hrow with h | h
      · subst h; exact absurd hio hper
      · exfalso
        have hge := schedGo_period_ge annual_rate amortization_months io_months
          start_date n (period + 1) _ row (mem_ite_nil_elim h)
        have hge' : ((period : ℤ) + 1) ≤ (row.period : ℤ) := by exact_mod_cast hge
        omega

/-- C7: for every loan with a positive interest-only window and nonnegative
principal, every schedule row whose period lies in that window has a
principal payment of exactly zero and carries the unchanged original
principal as its beginning and ending balance (stored rounded to cents, as
all row fields are). -/
theorem c7_interest_only_window (principal annual_rate : ℚ)
    (amortization_months io_months : ℤ) (total_months : ℕ)
    (start_date : Option MDate) (today : MDate) (hp : 0 ≤ principal) :
    ∀ row ∈ Amort.generate_amortization_schedule principal annual_rate
      amortization_months io_months total_months start_date today,
      (row.period : ℤ) ≤ io_months →
      row.principal = 0 ∧ row.beginning_balance = round2 principal ∧
        row.ending_balance = round2 principal := by
  intro row hrow hio
  exact schedGo_io_window principal annual_rate amortization_months io_months
    (start_date.getD today) hp total_months 1 row hrow hio

/-- Witness for C7: the single row of a concrete schedule (principal 100,
zero rate, 2 interest-only months, 24-month amortization, 1-month term)
lies in the interest-only window and keeps the balance at 100. -/
theorem c7_witness :
    0 ≤ (100 : ℚ) ∧
    (⟨1, ⟨2026, 1, 1⟩, 100, 0, 0, 0, 100⟩ : Amort.ARow) ∈
      Amort.generate_amortization_schedule 100 0 24 2 1 none ⟨2026, 1, 1⟩ ∧
    (((⟨1, ⟨2026, 1, 1⟩, 100, 0, 0, 0, 100⟩ : Amort.ARow).period : ℤ) ≤ 2) ∧
    ((⟨1, ⟨2026, 1, 1⟩, 100, 0, 0, 0, 100⟩ : Amort.ARow).principal = 0 ∧
      (⟨1, ⟨2026, 1, 1⟩, 100, 0, 0, 0, 100⟩ : Amort.ARow).beginning_balance =
        round2 100 ∧
      (⟨1, ⟨2026, 1, 1⟩, 100, 0, 0, 0, 100⟩ : Amort.ARow).ending_balance =
        round2 100) := by
  have hsched : Amort.generate_amortization_schedule 100 0 24 2 1 none ⟨2026, 1, 1⟩ =
      [⟨1, ⟨2026, 1, 1⟩, 100, 0, 0, 0, 100⟩] := by
    norm_num [Amort.generate_amortization_schedule, Amort.schedGo, round2, addMonths,
      monthLength, isLeap]
  have hmem : (⟨1, ⟨2026, 1, 1⟩, 100, 0, 0, 0, 100⟩ : Amort.ARow) ∈
      Amort.generate_amortization_schedule 100 0 24 2 1 none ⟨2026, 1, 1⟩ := by
    rw [hsched]; exact List.mem_singleton.mpr rfl
  exact ⟨by norm_num, hmem, by norm_num,
    c7_interest_only_window 100 0 24 2 1 none ⟨2026, 1, 1⟩ (by norm_num) _ hmem
      (by norm_num)⟩

/-- C1 counterexample: with cash flows `[-100, 50]`, total equity 100 and the
default 5% pref, period 1 has 50 of cash and a positive accrued preferred
balance (0.375 LP + 0.0417 GP, of which 0.38 LP is still outstanding after
the period), yet the preferred payments are 0 and the entire 50 is paid as
return of capital (45 LP / 5 GP): cash is NOT applied to preferred before
return of capital, refuting the claim at this input. -/
theorem c1_counterexample :
    ((Waterfall.calculate_waterfall_distributions [-100, 50] [] 100 (9/10) (1/10)
        (5/100) false none none).get? 1).map
      (fun r => (r.cash_flow, r.lp_equity_return, r.gp_equity_return,
        r.lp_preferred_return, r.gp_preferred_return, r.lp_pref_accrued,
        r.gp_pref_accrued)) =
      some (50, 45, 5, 0, 0, 19/50, 1/25) := by
  norm_num [Waterfall.calculate_waterfall_distributions, Waterfall.wfGo,
    Waterfall.wfStep, Waterfall.accrueStep, Waterfall.distribute,
    Waterfall.zeroComponents, Waterfall.DEFAULT_FINAL_SPLIT, round2, List.get?]

/-- C1 amended: the priority order in the code is the reverse of the claim:
for every positive-cash-flow period, available cash is applied FIRST to
unreturned equity (return of capital, pro-rata on unreturned balances,
capped at available cash), and the accrued preferred return is paid only
from the cash remaining after that equity payment. -/
theorem c1_amended_roc_before_pref (s : Waterfall.WState)
    (cash_flow lp_share : ℚ) (final_split : Waterfall.FinalSplit)
    (hcf : 0 < cash_flow) (hU : 0 < s.lpU + s.gpU) :
    ((Waterfall.distribute cash_flow lp_share final_split s).1.lpEq +
      (Waterfall.distribute cash_flow lp_share final_split s).1.gpEq =
        min cash_flow (s.lpU + s.gpU)) ∧
    ((Waterfall.distribute cash_flow lp_share final_split s).1.lpEq =
      min cash_flow (s.lpU + s.gpU) * (s.lpU / (s.lpU + s.gpU))) ∧
    ((Waterfall.distribute cash_flow lp_share final_split s).1.lpPref +
      (Waterfall.distribute cash_flow lp_share final_split s).1.gpPref =
        if 0 < cash_flow - min cash_flow (s.lpU + s.gpU) ∧ 0 < s.lpAcc + s.gpAcc
        then min (cash_flow - min cash_flow (s.lpU + s.gpU)) (s.lpAcc + s.gpAcc)
        else 0) := by
  simp only [Waterfall.distribute]
  rw [if_pos hcf, if_pos hU, if_pos hU]
  dsimp only
  refine ⟨by ring, by ring, ?_⟩
  split_ifs with h2 h3
  · ring
  · exact absurd h2.2 h3
  · norm_num

/-- Witness for C1 (amended) at the state reached in period 1 of the
counterexample run: 90/10 unreturned equity, 0.375/0.0417 accrued pref,
cash flow 50. -/
theorem c1_witness :
    0 < (50 : ℚ) ∧ 0 < (90 : ℚ) + 10 ∧
    ((Waterfall.distribute 50 (9/10) Waterfall.DEFAULT_FINAL_SPLIT
        ⟨90, 10, 3/8, 1/24⟩).1.lpEq +
      (Waterfall.distribute 50 (9/10) Waterfall.DEFAULT_FINAL_SPLIT
        ⟨90, 10, 3/8, 1/24⟩).1.gpEq = min 50 (90 + 10)) ∧
    ((Waterfall.distribute 50 (9/10) Waterfall.DEFAULT_FINAL_SPLIT
        ⟨90, 10, 3/8, 1/24⟩).1.lpPref +
      (Waterfall.distribute 50 (9/10) Waterfall.DEFAULT_FINAL_SPLIT
        ⟨90, 10, 3/8, 1/24⟩).1.gpPref =
        if 0 < (50 : ℚ) - min 50 (90 + 10) ∧ 0 < (3/8 : ℚ) + 1/24
        then min ((50 : ℚ) - min 50 (90 + 10)) ((3/8 : ℚ) + 1/24) else 0) := by
  have h := c1_amended_roc_before_pref ⟨90, 10, 3/8, 1/24⟩ 50 (9/10)
    Waterfall.DEFAULT_FINAL_SPLIT (by norm_num) (by norm_num)
  exact ⟨by norm_num, by norm_num, h.1, h.2.2⟩

/-- C3 counterexample: with total equity 0.005 and cash flows
`[-0.005, 0.01]`, every distribution amount of period 1 is under half a
cent, so every stored (cent-rounded) distribution field of the record is 0
while the period's cash flow is 0.01: the stored fields do not sum to the
cash flow. -/
theorem c3_counterexample :
    ((Waterfall.calculate_waterfall_distributions [-(1/200), 1/100] [] (1/200)
        (9/10) (1/10) (5/100) false none none).get? 1).map
      (fun r => (r.cash_flow,
        r.lp_equity_return + r.gp_equity_return + r.lp_preferred_return +
        r.gp_preferred_return + r.lp_profit_share + r.gp_profit_share +
        r.gp_promote)) = some (1/100, 0) ∧ (1/100 : ℚ) ≠ 0 := by
  constructor
  · norm_num [Waterfall.calculate_waterfall_distributions, Waterfall.wfGo,
      Waterfall.wfStep, Waterfall.accrueStep, Waterfall.distribute,
      Waterfall.zeroComponents, Waterfall.DEFAULT_FINAL_SPLIT, round2, List.get?]
  · norm_num

/-- C3 amended: the conservation law holds for the unrounded distribution
amounts: when the period's cash flow is positive (and the final-split
fractions sum to 1, as the defaults do), the seven distribution components
sum exactly to the cash flow; the stored record fields are those amounts
rounded to cents, so they sum to the cash flow only up to rounding.  When
the cash flow is zero or negative, every stored distribution field of the
record is exactly zero. -/
theorem c3_amended_conservation (compound_monthly : Bool)
    (lp_equity gp_equity monthly_pref_rate lp_share : ℚ)
    (final_split : Waterfall.FinalSplit) (dates : List MDate) (i : ℕ)
    (cash_flow : ℚ) (s : Waterfall.WState)
    (hsplit : final_split.lp_split + final_split.gp_split +
      final_split.gp_promote = 1) :
    (0 < cash_flow →
      (Waterfall.distribute cash_flow lp_share final_split s).1.lpEq +
      (Waterfall.distribute cash_flow lp_share final_split s).1.gpEq +
      (Waterfall.distribute cash_flow lp_share final_split s).1.lpPref +
      (Waterfall.distribute cash_flow lp_share final_split s).1.gpPref +
      (Waterfall.distribute cash_flow lp_share final_split s).1.lpProfit +
      (Waterfall.distribute cash_flow lp_share final_split s).1.gpProfit +
      (Waterfall.distribute cash_flow lp_share final_split s).1.promote =
        cash_flow) ∧
    (cash_flow ≤ 0 →
      (Waterfall.wfStep compound_monthly lp_equity gp_equity monthly_pref_rate
        lp_share final_split dates i cash_flow s).1.lp_equity_return = 0 ∧
      (Waterfall.wfStep compound_monthly lp_equity gp_equity monthly_pref_rate
        lp_share final_split dates i cash_flow s).1.gp_equity_return = 0 ∧
      (Waterfall.wfStep compound_monthly lp_equity gp_equity monthly_pref_rate
        lp_share final_split dates i cash_flow s).1.lp_preferred_return = 0 ∧
      (Waterfall.wfStep compound_monthly lp_equity gp_equity monthly_pref_rate
        lp_share final_split dates i cash_flow s).1.gp_preferred_return = 0 ∧
      (Waterfall.wfStep compound_monthly lp_equity gp_equity monthly_pref_rate
        lp_share final_split dates i cash_flow s).1.lp_profit_share = 0 ∧
      (Waterfall.wfStep compound_monthly lp_equity gp_equity monthly_pref_rate
        lp_share final_split dates i cash_flow s).1.gp_profit_share = 0 ∧
      (Waterfall.wfStep compound_monthly lp_equity gp_equity monthly_pref_rate
        lp_share final_split dates i cash_flow s).1.gp_promote = 0 ∧
      (Waterfall.wfStep compound_monthly lp_equity gp_equity monthly_pref_rate
        lp_share final_split dates i cash_flow s).1.total_to_lp = 0 ∧
      (Waterfall.wfStep compound_monthly lp_equity gp_equity monthly_pref_rate
        lp_share final_split dates i cash_flow s).1.total_to_gp = 0) := by
  constructor
  · intro hcf
    have hpromote : final_split.gp_promote =
        1 - final_split.lp_split - final_split.gp_split := by linarith
    have m1 : min cash_flow (s.lpU + s.gpU) ≤ cash_flow := min_le_left _ _
    have m2 : min (cash_flow - min cash_flow (s.lpU + s.gpU)) (s.lpAcc + s.gpAcc) ≤
        cash_flow - min cash_flow (s.lpU + s.gpU) := min_le_left _ _
    have m3 : min cash_flow (s.lpAcc + s.gpAcc) ≤ cash_flow := min_le_left _ _
    simp only [Waterfall.distribute]
    rw [if_pos hcf, hpromote]
    dsimp only
    split_ifs with h1 h2 h3 h4 h5 h6 h7 h8 h9 h10 <;>
      (try dsimp only at *) <;>
      first
        | (exfalso; tauto)
        | (ring_nf; linarith)
        | linarith
  · intro hcf
    simp only [Waterfall.wfStep]
    rw [Waterfall.distribute.eq_def, if_neg (not_lt.mpr hcf)]
    norm_num [Waterfall.zeroComponents, round2]

/-- Witness for C3 (amended) with the default final split (which sums to 1)
at a concrete state and cash flow. -/
theorem c3_witness :
    (Waterfall.DEFAULT_FINAL_SPLIT.lp_split + Waterfall.DEFAULT_FINAL_SPLIT.gp_split +
      Waterfall.DEFAULT_FINAL_SPLIT.gp_promote = 1) ∧
    (0 < (5 : ℚ) →
      (Waterfall.distribute 5 (9/10) Waterfall.DEFAULT_FINAL_SPLIT
        ⟨1, 1, 0, 0⟩).1.lpEq +
      (Waterfall.distribute 5 (9/10) Waterfall.DEFAULT_FINAL_SPLIT
        ⟨1, 1, 0, 0⟩).1.gpEq +
      (Waterfall.distribute 5 (9/10) Waterfall.DEFAULT_FINAL_SPLIT
        ⟨1, 1, 0, 0⟩).1.lpPref +
      (Waterfall.distribute 5 (9/10) Waterfall.DEFAULT_FINAL_SPLIT
        ⟨1, 1, 0, 0⟩).1.gpPref +
      (Waterfall.distribute 5 (9/10) Waterfall.DEFAULT_FINAL_SPLIT
        ⟨1, 1, 0, 0⟩).1.lpProfit +
      (Waterfall.distribute 5 (9/10) Waterfall.DEFAULT_FINAL_SPLIT
        ⟨1, 1, 0, 0⟩).1.gpProfit +
      (Waterfall.distribute 5 (9/10) Waterfall.DEFAULT_FINAL_SPLIT
        ⟨1, 1, 0, 0⟩).1.promote = 5) := by
  have h := c3_amended_conservation false 1 1 0 (9/10) Waterfall.DEFAULT_FINAL_SPLIT
    [] 1 5 ⟨1, 1, 0, 0⟩ (by norm_num [Waterfall.DEFAULT_FINAL_SPLIT])
  exact ⟨by norm_num [Waterfall.DEFAULT_FINAL_SPLIT], h.1⟩

/-- C10: in `calculate_waterfall_distributions`, preferred return accrues at
every period index `i ≥ 1` regardless of the sign of the cash flow: for a
period with zero or negative cash flow, every stored distribution field of
the record is zero, yet the running accrued-preferred balances strictly
increase whenever `pref_return > 0` and the party's equity is positive
(in both the simple and the monthly-compounding accrual modes, given the
accrued balances are nonnegative, as they are along any run from the zero
initial balances). -/
theorem c10_accrual_on_nonpositive_periods (compound_monthly : Bool)
    (lp_equity gp_equity pref_return lp_share : ℚ)
    (final_split : Waterfall.FinalSplit) (dates : List MDate) (i : ℕ)
    (cash_flow : ℚ) (s : Waterfall.WState)
    (hi : 1 ≤ i) (hcf : cash_flow ≤ 0)
    (hlp : 0 ≤ s.lpAcc) (hgp : 0 ≤ s.gpAcc) :
    ((Waterfall.wfStep compound_monthly lp_equity gp_equity (pref_return / 12)
        lp_share final_split dates i cash_flow s).1.lp_equity_return = 0 ∧
      (Waterfall.wfStep compound_monthly lp_equity gp_equity (pref_return / 12)
        lp_share final_split dates i cash_flow s).1.lp_preferred_return = 0 ∧
      (Waterfall.wfStep compound_monthly lp_equity gp_equity (pref_return / 12)
        lp_share final_split dates i cash_flow s).1.gp_preferred_return = 0 ∧
      (Waterfall.wfStep compound_monthly lp_equity gp_equity (pref_return / 12)
        lp_share final_split dates i cash_flow s).1.total_to_lp = 0 ∧
      (Waterfall.wfStep compound_monthly lp_equity gp_equity (pref_return / 12)
        lp_share final_split dates i cash_flow s).1.total_to_gp = 0) ∧
    (0 < pref_return → 0 < lp_equity →
      s.lpAcc < (Waterfall.wfStep compound_monthly lp_equity gp_equity
        (pref_return / 12) lp_share final_split dates i cash_flow s).2.lpAcc) ∧
    (0 < pref_return → 0 < gp_equity →
      s.gpAcc < (Waterfall.wfStep compound_monthly lp_equity gp_equity
        (pref_return / 12) lp_share final_split dates i cash_flow s).2.gpAcc) := by
  have h12 : ∀ p : ℚ, 0 < p → 0 < p / 12 := fun p hp => by positivity
  simp only [Waterfall.wfStep]
  rw [if_pos (by omega : i > 0)]
  rw [Waterfall.distribute.eq_def, if_neg (not_lt.mpr hcf)]
  dsimp only
  refine ⟨by norm_num [Waterfall.zeroComponents, round2], ?_, ?_⟩
  · intro hpref heq
    cases compound_monthly
    · show s.lpAcc < s.lpAcc + lp_equity * (pref_return / 12)
      nlinarith [mul_pos heq (h12 _ hpref)]
    · show s.lpAcc < s.lpAcc + (lp_equity + s.lpAcc) * (pref_return / 12)
      nlinarith [mul_pos (by linarith : (0:ℚ) < lp_equity + s.lpAcc) (h12 _ hpref)]
  · intro hpref heq
    cases compound_monthly
    · show s.gpAcc < s.gpAcc + gp_equity * (pref_return / 12)
      nlinarith [mul_pos heq (h12 _ hpref)]
    · show s.gpAcc < s.gpAcc + (gp_equity + s.gpAcc) * (pref_return / 12)
      nlinarith [mul_pos (by linarith : (0:ℚ) < gp_equity + s.gpAcc) (h12 _ hpref)]

/-- Witness for C10 at a concrete zero-cash-flow period. -/
theorem c10_witness :
    1 ≤ 1 ∧ (-(5 : ℚ)) ≤ 0 ∧ (0 : ℚ) ≤ 0 ∧
    (0 < (5/100 : ℚ) → 0 < (90 : ℚ) →
      (0 : ℚ) < (Waterfall.wfStep false 90 10 ((5/100) / 12) (9/10)
        Waterfall.DEFAULT_FINAL_SPLIT [] 1 (-5) ⟨90, 10, 0, 0⟩).2.lpAcc) := by
  have h := c10_accrual_on_nonpositive_periods false 90 10 (5/100) (9/10)
    Waterfall.DEFAULT_FINAL_SPLIT [] 1 (-5) ⟨90, 10, 0, 0⟩ le_rfl (by norm_num)
    le_rfl le_rfl
  exact ⟨le_rfl, by norm_num, le_rfl, fun hp he => h.2.1 hp he⟩

/-- Helper: `round2R` is the identity on integers. -/
theorem round2R_intCast (n : ℤ) : round2R ((n : ℝ)) = n := by
  simp only [round2R]
  rw [show ((n : ℝ) * 100) = (((n * 100 : ℤ) : ℝ)) by push_cast; ring]
  rw [Int.floor_intCast]
  rw [if_pos (by norm_num)]
  push_cast
  ring

/-- Helper: the NOI of every operating period of `negNoiConfig` is −1. -/
theorem negNoiConfig_noi : (Cashflow.passOne Cashflow.negNoiConfig 1).noi = -1 := by
  norm_num [Cashflow.passOne, Cashflow.negNoiConfig,
    Cashflow.calculate_escalation_factor, Real.one_rpow]

/-- Helper: the forward 12-month NOI of `negNoiConfig` at its exit period. -/
theorem negNoiConfig_forward_noi : Cashflow.forward_noi Cashflow.negNoiConfig 1 = -12 := by
  rw [Cashflow.forward_noi]
  norm_num [show Cashflow.negNoiConfig.hold_period_months = 1 from rfl,
    show Cashflow.negNoiConfig.rent_growth = 0 from rfl, negNoiConfig_noi,
    Finset.sum_range_succ, Real.one_rpow]

/-- Helper: the exit proceeds of `negNoiConfig` are −196 (before rounding). -/
theorem negNoiConfig_exit_proceeds :
    (Cashflow.passTwo Cashflow.negNoiConfig 1).exit_proceeds = -196 := by
  simp only [Cashflow.passTwo]
  rw [if_pos (show (1 : ℕ) = Cashflow.negNoiConfig.hold_period_months from rfl)]
  rw [if_pos (show (0:ℝ) < Cashflow.negNoiConfig.exit_cap_rate by norm_num
    [show Cashflow.negNoiConfig.exit_cap_rate = 3/50 from rfl])]
  rw [negNoiConfig_forward_noi]
  norm_num [show Cashflow.negNoiConfig.exit_cap_rate = 3/50 from rfl,
    show Cashflow.negNoiConfig.sales_cost_percent = 1/50 from rfl]

/-- Helper: the last record of `generate_cash_flows` is the one for period
`hold_period_months`. -/
theorem generate_cash_flows_getLast (cfg : Cashflow.CFConfig) :
    (Cashflow.generate_cash_flows cfg).getLast? =
      some (Cashflow.cashFlowRecord cfg cfg.hold_period_months) := by
  rw [Cashflow.generate_cash_flows, List.range_succ]
  simp

/-- C2: the cash-flow generator applies the GENERIC annual-step escalation
factor to property tax, which steps at period 12, not the property-tax
variant of the spec (modelled here as `calculate_property_tax_escalation`)
that stays 1.0 through period 12 and first steps at period 13: at period 12
with a 2.5% rate the applied factor is 1.025, not 1.0, and the generated
monthly property tax on an annual amount of 622.5 is 622.5·1.025/12, not
622.5/12. -/
theorem c2_property_tax_steps_at_twelve :
    Cashflow.calculate_escalation_factor (1/40) 12 .annual = 41/40 ∧
    (41/40 : ℝ) ≠ 1 ∧
    Cashflow.calculate_property_tax_escalation (1/40) 12 = 1 ∧
    (Cashflow.passOne Cashflow.propTaxConfig 12).prop_tax = 1245/2 * (41/40) / 12 ∧
    (1245/2 * (41/40) / 12 : ℝ) ≠ 1245/2 / 12 := by
  refine ⟨?_, by norm_num, ?_, ?_, by norm_num⟩
  · norm_num [Cashflow.calculate_escalation_factor]
  · norm_num [Cashflow.calculate_property_tax_escalation]
  · norm_num [Cashflow.passOne, Cashflow.propTaxConfig,
      Cashflow.calculate_escalation_factor]

/-- C4: with a configured loan, the exit-period leveraged cash flow equals
the unleveraged cash flow minus debt service minus the FULL ORIGINAL loan
amount (not an amortized remaining balance), before rounding; the stored
record field is that value rounded to cents. -/
theorem c4_exit_loan_payoff (cfg : Cashflow.CFConfig) (amount : ℝ)
    (hL : cfg.loan_amount = some amount) (hpos : 0 < amount)
    (hhold : 1 ≤ cfg.hold_period_months) :
    (Cashflow.passTwo cfg cfg.hold_period_months).leveraged_cf =
      (Cashflow.passTwo cfg cfg.hold_period_months).unleveraged_cf -
        (Cashflow.passTwo cfg cfg.hold_period_months).debt_service - amount ∧
    (Cashflow.cashFlowRecord cfg cfg.hold_period_months).leveraged_cash_flow =
      round2R ((Cashflow.passTwo cfg cfg.hold_period_months).leveraged_cf) := by
  have hLP : Cashflow.loanPos cfg.loan_amount := by rw [hL]; exact hpos
  have hLV : Cashflow.loanVal cfg.loan_amount = amount := by rw [hL]; rfl
  constructor
  · simp only [Cashflow.passTwo, if_true]
    rw [if_neg (fun hz => by omega : ¬(cfg.hold_period_months = 0 ∧
        Cashflow.loanPos cfg.loan_amount))]
    rw [if_pos ⟨rfl, hLP⟩, hLV]
  · simp only [Cashflow.cashFlowRecord]

/-- Witness for C4 on a 2-month-hold scenario with a 500 loan. -/
theorem c4_witness :
    Cashflow.loanExampleConfig.loan_amount = some 500 ∧ (0 : ℝ) < 500 ∧
    1 ≤ Cashflow.loanExampleConfig.hold_period_months ∧
    ((Cashflow.passTwo Cashflow.loanExampleConfig
        Cashflow.loanExampleConfig.hold_period_months).leveraged_cf =
      (Cashflow.passTwo Cashflow.loanExampleConfig
        Cashflow.loanExampleConfig.hold_period_months).unleveraged_cf -
        (Cashflow.passTwo Cashflow.loanExampleConfig
          Cashflow.loanExampleConfig.hold_period_months).debt_service - 500 ∧
      (Cashflow.cashFlowRecord Cashflow.loanExampleConfig
        Cashflow.loanExampleConfig.hold_period_months).leveraged_cash_flow =
        round2R ((Cashflow.passTwo Cashflow.loanExampleConfig
          Cashflow.loanExampleConfig.hold_period_months).leveraged_cf)) :=
  ⟨rfl, by norm_num,
    by norm_num [show Cashflow.loanExampleConfig.hold_period_months = 2 from rfl],
    c4_exit_loan_payoff Cashflow.loanExampleConfig 500 rfl (by norm_num)
      (by norm_num [show Cashflow.loanExampleConfig.hold_period_months = 2 from rfl])⟩

/-- C8 counterexample: a scenario with zero rent and positive fixed opex has
NOI = −1 every period, so at exit (period 1) the forward NOI is −12 and the
exit proceeds are −196 < 0 even though `exit_cap_rate = 0.06 > 0`: the final
record's `exit_proceeds` is not positive, refuting the claim. -/
theorem c8_counterexample :
    0 < Cashflow.negNoiConfig.exit_cap_rate ∧
    (Cashflow.generate_cash_flows Cashflow.negNoiConfig).getLast? =
      some (Cashflow.cashFlowRecord Cashflow.negNoiConfig 1) ∧
    (Cashflow.cashFlowRecord Cashflow.negNoiConfig 1).exit_proceeds = -196 ∧
    ¬ 0 < (Cashflow.cashFlowRecord Cashflow.negNoiConfig 1).exit_proceeds := by
  have hrec : (Cashflow.cashFlowRecord Cashflow.negNoiConfig 1).exit_proceeds = -196 := by
    have h1 : (Cashflow.cashFlowRecord Cashflow.negNoiConfig 1).exit_proceeds =
        round2R ((Cashflow.passTwo Cashflow.negNoiConfig 1).exit_proceeds) := rfl
    rw [h1, negNoiConfig_exit_proceeds]
    exact_mod_cast round2R_intCast (-196)
  refine ⟨by norm_num [show Cashflow.negNoiConfig.exit_cap_rate = 3/50 from rfl], ?_,
    hrec, by rw [hrec]; norm_num⟩
  have := generate_cash_flows_getLast Cashflow.negNoiConfig
  rwa [show Cashflow.negNoiConfig.hold_period_months = 1 from rfl] at this

/-- C8 amended: the final record's exit proceeds (before rounding) are
strictly positive whenever the exit cap rate is positive, the sales-cost
percentage is below 100%, and the forward 12-month NOI at exit is positive;
a nonpositive forward NOI (e.g. a persistently negative-NOI scenario) makes
them nonpositive. -/
theorem c8_amended_exit_proceeds_pos (cfg : Cashflow.CFConfig)
    (hcap : 0 < cfg.exit_cap_rate) (hsc : cfg.sales_cost_percent < 1)
    (hfwd : 0 < Cashflow.forward_noi cfg cfg.hold_period_months) :
    0 < (Cashflow.passTwo cfg cfg.hold_period_months).exit_proceeds := by
  simp only [Cashflow.passTwo, if_true]
  rw [if_pos hcap]
  have hg : 0 < Cashflow.forward_noi cfg cfg.hold_period_months / cfg.exit_cap_rate :=
    div_pos hfwd hcap
  nlinarith [mul_pos hg (by linarith : (0:ℝ) < 1 - cfg.sales_cost_percent)]

/-- Witness for C8 (amended) on a positive-NOI scenario: forward NOI 12,
exit proceeds 12/0.06 · 0.98 = 196 > 0. -/
theorem c8_witness :
    0 < Cashflow.posNoiConfig.exit_cap_rate ∧
    Cashflow.posNoiConfig.sales_cost_percent < 1 ∧
    0 < Cashflow.forward_noi Cashflow.posNoiConfig
      Cashflow.posNoiConfig.hold_period_months ∧
    0 < (Cashflow.passTwo Cashflow.posNoiConfig
      Cashflow.posNoiConfig.hold_period_months).exit_proceeds := by
  have hP1 : (Cashflow.passOne Cashflow.posNoiConfig 1).noi = 1 := by
    norm_num [Cashflow.passOne, Cashflow.posNoiConfig,
      Cashflow.calculate_escalation_factor, Real.one_rpow]
  have hfwd : Cashflow.forward_noi Cashflow.posNoiConfig 1 = 12 := by
    rw [Cashflow.forward_noi]
    norm_num [show Cashflow.posNoiConfig.hold_period_months = 1 from rfl,
      show Cashflow.posNoiConfig.rent_growth = 0 from rfl, hP1,
      Finset.sum_range_succ, Real.one_rpow]
  have hcap : 0 < Cashflow.posNoiConfig.exit_cap_rate := by
    norm_num [show Cashflow.posNoiConfig.exit_cap_rate = 3/50 from rfl]
  have hsc : Cashflow.posNoiConfig.sales_cost_percent < 1 := by
    norm_num [show Cashflow.posNoiConfig.sales_cost_percent = 1/50 from rfl]
  have hfwd' : 0 < Cashflow.forward_noi Cashflow.posNoiConfig
      Cashflow.posNoiConfig.hold_period_months := by
    rw [show Cashflow.posNoiConfig.hold_period_months = 1 from rfl, hfwd]
    norm_num
  exact ⟨hcap, hsc, hfwd',
    c8_amended_exit_proceeds_pos Cashflow.posNoiConfig hcap hsc hfwd'⟩

end REModel
